import Mathlib

/-!
Verification of the ai-athlete backend core against its specification.

This file shallowly embeds the pure logic of the repository
(`app/main.py`, `app/sport_detect.py`, `app/pose_overlay.py`,
`app/focus_rules.py`) into Lean 4 and proves the specification claims
about it.

Conventions of the embedding:
* Python floats are idealised as exact rationals (`ℚ`); all the
  thresholds of the source (0.8, 1.6, 170, 0.10, 0.70, 0.20, 0.15) are
  exactly representable choices compared with exact arithmetic.
* Python `None` becomes `Option.none`; Python truthiness of an optional
  float (`if kl and kr`) is spelled out (`none` and `some 0` are falsy).
* `math.degrees(math.acos x)` is a strictly decreasing bijection of
  `[-1, 1]` onto `[0°, 180°]`, so an angle value is embedded by an exact
  rational invariant of its cosine wherever the angle itself would be
  irrational; the invariant used is documented at each definition.
* The in-memory job store `JOBS` is a map from job id to job record,
  and the HTTP/background layer is modelled by the store operations the
  endpoints perform.
-/

/-! ### Geometry helpers (`app/main.py`) -/

/-- Squared euclidean distance of two 2-D points.  The source computes
`math.hypot` (the square root); all uses below only compare distances
with nonnegative constants, which is done on the squares. -/
def distSq (a b : ℚ × ℚ) : ℚ :=
  (a.1 - b.1) ^ 2 + (a.2 - b.2) ^ 2

/-- Source `main.py _angle(a, b, c)`: the knee-flexion angle at vertex `b`,
`degrees(acos(clamp(cosv)))` with `cosv = (ab² + cb² - ac²)/(2·ab·cb)`,
returning `None` when `ab == 0` or `cb == 0`.

Since `degrees ∘ acos` is a strictly decreasing bijection `[-1,1] → [0°,180°]`,
the angle is embedded by the exact rational invariant
`clamp (sgn X · X² / (4·A·B)) ∈ [-1,1]` of its cosine, where
`A = ab²`, `B = cb²`, `X = A + B - ac²`: the payload is the signed square
of the clamped cosine (1 ↔ 0°, 0 ↔ 90°, -1 ↔ 180°), monotonically
decreasing in the angle, and the clamp of the source is the `max/min`
below. -/
def _angle (a b c : ℚ × ℚ) : Option ℚ :=
  let A := distSq a b
  let B := distSq c b
  if A = 0 ∨ B = 0 then none
  else
    let X := A + B - distSq a c
    some (max (-1) (min 1 (X * |X| / (4 * A * B))))

/-- Source `main.py _median(xs)`: drop the `None` entries, sort, and take the
middle element (odd count) or the mean of the two middle elements
(even count); `None` on an empty survivor list.  The Python in-place
stable ascending `list.sort` is `List.insertionSort (· ≤ ·)`. -/
def _median (xs : List (Option ℚ)) : Option ℚ :=
  let v := (xs.filterMap id).insertionSort (· ≤ ·)
  let n := v.length
  if n = 0 then none
  else if n % 2 = 1 then v[n / 2]?
  else
    match v[n / 2 - 1]?, v[n / 2]? with
    | some a, some b => some ((a + b) / 2)
    | _, _ => none

/-! ### Shape heuristic (`app/main.py simple_auto_sport`) -/

/-- Source `main.py simple_auto_sport(width, height, fps)`:
`ar = width / float(height or 1)`; `< 0.8 → "running"`,
`> 1.6 → "soccer"`, otherwise `"tennis"`.  `fps` is accepted and unused,
as in the source. -/
def simple_auto_sport (width height : ℕ) (fps : ℚ) : String :=
  let ar : ℚ := (width : ℚ) / (if height = 0 then 1 else (height : ℚ))
  if ar < 4 / 5 then "running"
  else if ar > 8 / 5 then "soccer"
  else "tennis"

/-! ### Aggregated metrics and derived recommendations
(`app/main.py draw_pose_overlay` summary / `process_job`) -/

/-- The `metrics_calc` summary dictionary produced by
`draw_pose_overlay`: the four per-metric medians, each possibly
absent. -/
structure MetricsCalc where
  knee_angle_left_median : Option ℚ
  knee_angle_right_median : Option ℚ
  elbow_drop_median : Option ℚ
  stance_width_ratio_median : Option ℚ
deriving DecidableEq

/-- The knee-bend recommendation text of `process_job`. -/
def bend_knees_tip : String :=
  "Bend your knees ~10–20° more during preparation for better stability."

/-- The elbow-height recommendation text of `process_job`. -/
def elbow_tip : String :=
  "Keep your hitting elbow higher (closer to shoulder height) through the swing."

/-- The stance-width recommendation text of `process_job`. -/
def stance_tip : String :=
  "Adopt a wider base (increase ankle distance) to improve balance and power transfer."

/-- The knee clause of the recommendation derivation in `process_job`.
Python truthiness is preserved: `if kl and kr and (kl > 170 and kr > 170)`
requires `kl`, `kr` present *and nonzero* before the comparisons run
(the comparisons then subsume the nonzero test). -/
def knee_rec (mc : MetricsCalc) : List String :=
  match mc.knee_angle_left_median, mc.knee_angle_right_median with
  | some kl, some kr =>
    if kl ≠ 0 ∧ kr ≠ 0 ∧ kl > 170 ∧ kr > 170 then [bend_knees_tip] else []
  | _, _ => []

/-- The elbow clause: `if ed is not None and ed > 0.10`. -/
def elbow_rec (mc : MetricsCalc) : List String :=
  match mc.elbow_drop_median with
  | some ed => if ed > 1 / 10 then [elbow_tip] else []
  | none => []

/-- The stance clause: `if sw is not None and sw < 0.70`. -/
def stance_rec (mc : MetricsCalc) : List String :=
  match mc.stance_width_ratio_median with
  | some sw => if sw < 7 / 10 then [stance_tip] else []
  | none => []

/-- The `recs` list built in `process_job` from `metrics_calc`: the
three clauses append in their fixed source order. -/
def process_recs (mc : MetricsCalc) : List String :=
  knee_rec mc ++ elbow_rec mc ++ stance_rec mc

/-- The `recommendations` field attached to the result:
`recs[:3] if recs else []`. -/
def analysis_recommendations (mc : MetricsCalc) : List String :=
  let recs := process_recs mc
  if recs = [] then [] else recs.take 3

/-! ### Focus-tip catalog (`app/focus_rules.py`) -/

/-- Python `str` truthiness helpers: the characters `str.strip()` removes
(ASCII whitespace). -/
def isPySpace (c : Char) : Bool :=
  c = ' ' ∨ c = '\t' ∨ c = '\n' ∨ c = '\r' ∨ c = '\x0b' ∨ c = '\x0c'

/-- ASCII lower-casing of one character (`str.lower` on the ASCII
alphabet of the catalog). -/
def pyCharLower (c : Char) : Char :=
  if 'A' ≤ c ∧ c ≤ 'Z' then Char.ofNat (c.toNat + 32) else c

/-- Python `str.lower()`. -/
def pyLower (s : String) : String := ⟨s.data.map pyCharLower⟩

/-- Left strip on a character list. -/
def lstripList (l : List Char) : List Char := l.dropWhile isPySpace

/-- Python `str.strip()`: drop leading and trailing whitespace. -/
def pyStrip (s : String) : String :=
  ⟨((lstripList s.data).reverse.dropWhile isPySpace).reverse⟩

/-- Python `(sport or "").lower().strip()` — the argument normalisation of
`get_focus_recommendations` (`None` is falsy, so it becomes `""`). -/
def pyNorm (s : Option String) : String := pyStrip (pyLower (s.getD ""))

/-- The `tennis → swing` entry of `RECOMMENDATIONS_DB`. -/
def tennis_swing : List String :=
  ["Keep elbow high through contact to avoid power loss.",
   "Brush up on the ball for more topspin (wrist snap).",
   "Finish over the shoulder for consistent follow-through."]

/-- The `tennis → footwork` entry of `RECOMMENDATIONS_DB`. -/
def tennis_footwork : List String :=
  ["Add a split step before opponent contact for quicker reactions.",
   "Shorten recovery steps and stay centered after the shot.",
   "Transfer weight to the front foot at contact for balance."]

/-- The `tennis → preparation` entry of `RECOMMENDATIONS_DB`. -/
def tennis_preparation : List String :=
  ["Coil shoulders ~90° on takeback to load torque.",
   "Lower ready position to improve anticipation.",
   "Check grip (semi-western recommended for topspin)."]

/-- Source `RECOMMENDATIONS_DB`: the static catalog, keyed by sport then
focus. -/
def RECOMMENDATIONS_DB : List (String × List (String × List String)) :=
  [("tennis",
    [("swing", tennis_swing),
     ("footwork", tennis_footwork),
     ("preparation", tennis_preparation)])]

/-- One returned tip object `{"id": i, "text": t}`. -/
structure Tip where
  id : ℕ
  text : String
deriving DecidableEq

/-- Source `focus_rules.get_focus_recommendations(sport, focus, limit)`.
The placeholder text for an unknown focus interpolates the *normalised*
focus, as the f-string does after the reassignment in the source. -/
def get_focus_recommendations (sport focus : Option String) (limit : ℕ) : List Tip :=
  let s := pyNorm sport
  let f := pyNorm focus
  match RECOMMENDATIONS_DB.lookup s with
  | none => [⟨0, "General tip: keep movements controlled and repeatable."⟩]
  | some focusMap =>
    match focusMap.lookup f with
    | none => [⟨0, "No specific tips for \x27" ++ f ++ "\x27. Try another focus."⟩]
    | some tips => (tips.take limit).enum.map (fun p => ⟨p.1, p.2⟩)

/-! ### Motion heuristic (`app/pose_overlay.py _guess_sport_from_pose_series`,
mirrored by `app/sport_detect.py detect_sport_from_gcs`) -/

/-- The left-arm landmarks of one pose frame (normalised coordinates):
left shoulder, left elbow, left wrist. -/
structure ArmFrame where
  sh : ℚ × ℚ
  el : ℚ × ℚ
  wr : ℚ × ℚ
deriving DecidableEq

/-- Dot product of the vectors `a - b` and `c - b` (the two rays of the
angle at vertex `b` in `pose_overlay._angle`). -/
def dotAt (b a c : ℚ × ℚ) : ℚ :=
  (a.1 - b.1) * (c.1 - b.1) + (a.2 - b.2) * (c.2 - b.2)

/-- The test `60 < pose_overlay._angle(a, b, c) < 120` as an exact rational test.

The source computes `ang = degrees(acos(clamp(dot/(n1·n2))))` with
`n1 = hypot(a-b) or 1e-6` and `n2 = hypot(c-b) or 1e-6`.  Since
`degrees ∘ acos` is strictly decreasing, `60 < ang < 120` holds exactly
when the (clamped) cosine lies strictly between `cos 120° = -1/2` and
`cos 60° = 1/2`, i.e. `|dot| < n1·n2/2`, i.e. `4·dot² < n1²·n2²`, with
`n1² = distSq a b` when nonzero and `(1e-6)² = 1/10¹²` otherwise. -/
def angCosWindow (a b c : ℚ × ℚ) : Bool :=
  let A := distSq a b
  let B := distSq c b
  let d := dotAt b a c
  4 * d ^ 2 <
    (if A = 0 then 1 / 10 ^ 12 else A) * (if B = 0 then 1 / 10 ^ 12 else B)

/-- One frame counts as a "hit" in `_guess_sport_from_pose_series`:
`arm_len > 0.20 and horiz > 0.15 and 60 < ang < 120`
(`arm_len > 0.20` on the nonnegative `hypot` is `arm_len² > 1/25`). -/
def isHit (f : ArmFrame) : Bool :=
  decide (distSq f.el f.sh > 1 / 25) &&
  decide (|f.el.1 - f.sh.1| > 3 / 20) &&
  angCosWindow f.sh f.el f.wr

/-- Source `pose_overlay._guess_sport_from_pose_series`: `"unknown"` on an
empty series, else `"tennis"` iff the hit count reaches
`max(6, int(0.2 * total))`; for the frame counts at stake
`int(0.2 * total)` is `total / 5` in integer division. -/
def _guess_sport_from_pose_series (frames : List ArmFrame) : String :=
  if frames = [] then "unknown"
  else if frames.countP isHit ≥ max 6 (frames.length / 5) then "tennis"
  else "unknown"

/-! ### Sport resolution in the job pipeline (`app/main.py process_job`) -/

/-- Source `main.py process_job`: `sport = provided_sport or
simple_auto_sport(meta["width"], meta["height"], meta["fps"])` — Python
`or` falls through on `None` and on the empty string. -/
def resolve_sport (provided_sport : Option String) (width height : ℕ) (fps : ℚ) : String :=
  match provided_sport with
  | some s => if s = "" then simple_auto_sport width height fps else s
  | none => simple_auto_sport width height fps

/-! ### Job store and background processing (`app/main.py`) -/

/-- The Python exceptions distinguished by the `except` clauses of
`process_job`: `subprocess.CalledProcessError` (raised only by
`subprocess.run(..., check=True)` in `transcode_to_web_mp4`, carrying
the process stderr) versus every other exception, of which only
`str(e)` is used. -/
inductive PyExc where
  | calledProcessError (stderr : String)
  | generic (msg : String)
deriving DecidableEq

/-- The error dictionary written into `JOBS[job_id]["result"]` on
failure: `{"error": ..., "stderr": ...}` for the ffmpeg branch (the
`stderr` key only exists there). -/
structure ErrDiag where
  error : String
  stderr : Option String
deriving DecidableEq

/-- The two `except` handlers of `process_job`. -/
def process_job_error_result : PyExc → ErrDiag
  | .calledProcessError st => ⟨"ffmpeg transcode failed", some st⟩
  | .generic msg => ⟨msg, none⟩

/-- The body of the `try` block of `process_job` as a sequence of fallible
stages, each aborting the rest on failure: download (`fetch`), overlay
render + metrics (`overlay`, producing the meta value `M`), ffmpeg
transcode (`transcode`, whose failure is a `CalledProcessError` with
stderr), result upload (`upload`), and signed-URL / result assembly
(`assemble`, producing the result payload `R`).  Exception provenance
is from the source: only the transcode stage runs a subprocess, every
other stage raises ordinary exceptions. -/
def run_pipeline (M R : Type)
    (fetch : Except String Unit) (overlay : Except String M)
    (transcode : Except String Unit) (upload : Except String Unit)
    (assemble : M → Except String R) : Except PyExc R :=
  match fetch with
  | .error m => .error (.generic m)
  | .ok _ =>
    match overlay with
    | .error m => .error (.generic m)
    | .ok meta =>
      match transcode with
      | .error st => .error (.calledProcessError st)
      | .ok _ =>
        match upload with
        | .error m => .error (.generic m)
        | .ok _ =>
          match assemble meta with
          | .error m => .error (.generic m)
          | .ok r => .ok r

/-- The value stored under `JOBS[job_id]["result"]`: the success payload
dictionary or an error dictionary. -/
inductive JobVal (R : Type) where
  | res (r : R)
  | err (d : ErrDiag)
deriving DecidableEq

/-- One `JOBS[job_id]` record: `{"status": ..., "object_path": ...,
"result": ...}`. -/
structure JobRec (R : Type) where
  status : String
  object_path : String
  result : Option (JobVal R)
deriving DecidableEq

/-- The in-memory job store `JOBS`. -/
def Store (R : Type) := String → Option (JobRec R)

/-- Source `create_job` (`POST /jobs`): insert
`{"status": "PROCESSING", "object_path": ..., "result": None}` under the
fresh id (and schedule `process_job` for it, once). -/
def create_job (R : Type) (st : Store R) (id object_path : String) : Store R :=
  fun k => if k = id then some ⟨"PROCESSING", object_path, none⟩ else st k

/-- The terminal writes of `process_job`: on a successful pipeline run,
`status := "DONE"` and the result payload; on any caught exception,
`status := "ERROR"` and the corresponding error dictionary.  Only the
entry of `job_id` is touched. -/
def process_job (R : Type) (id : String) (outcome : Except PyExc R)
    (st : Store R) : Store R :=
  fun k =>
    if k = id then
      (st k).map (fun j =>
        match outcome with
        | .ok r => ⟨"DONE", j.object_path, some (.res r)⟩
        | .error e => ⟨"ERROR", j.object_path, some (.err (process_job_error_result e))⟩)
    else st k

/-- The `GET /status/{job_id}` read: `{"status": ..., "result": ...}`,
404 (`none`) for an unknown id. -/
def status_query (R : Type) (st : Store R) (id : String) :
    Option (String × Option (JobVal R)) :=
  (st id).map (fun j => (j.status, j.result))

/-- The status endpoint as a state transformer: it returns its answer
and leaves the store untouched (it only reads `JOBS`). -/
def status_endpoint (R : Type) (id : String) (st : Store R) :
    Option (String × Option (JobVal R)) × Store R :=
  (status_query R st id, st)

/-- Running a sequence of status queries, threading the store. -/
def run_queries (R : Type) (ids : List String) (st : Store R) : Store R :=
  ids.foldl (fun s i => (status_endpoint R i s).2) st

/-! ### Claim-side definitions (stage-identifying diagnostics, from the
error-handling section of the spec) -/

/-- The error kinds the specification requires the terminal diagnostic
to be classified into. -/
inductive StageKind where
  | fetchStage
  | decodeStage
  | transcodeStage
  | uploadStage
  | internalStage
deriving DecidableEq

/-- The diagnostic that ends up in the terminal `Error` result of a job for
a given run of the pipeline (`none` when the run succeeds). -/
def pipeline_diag (M R : Type)
    (fetch : Except String Unit) (overlay : Except String M)
    (transcode upload : Except String Unit) (assemble : M → Except String R) :
    Option ErrDiag :=
  match run_pipeline M R fetch overlay transcode upload assemble with
  | .error e => some (process_job_error_result e)
  | .ok _ => none

/-- Following the words of the spec: the diagnostic written on failure is
classified into one of the kinds `FetchFailed`, `DecodeFailed`,
`TranscodeFailed`, `UploadFailed`, `Internal`, i.e. some classification
of the written diagnostics recovers, for every possible failure, the
kind of the stage that failed. -/
def claimStageClassification : Prop :=
  ∃ kindOf : ErrDiag → StageKind,
    (∀ (m : String) (o t u : Except String Unit) (a : Unit → Except String Unit) d,
       pipeline_diag Unit Unit (.error m) o t u a = some d →
       kindOf d = .fetchStage) ∧
    (∀ (m : String) (t u : Except String Unit) (a : Unit → Except String Unit) d,
       pipeline_diag Unit Unit (.ok ()) (.error m) t u a = some d →
       kindOf d = .decodeStage) ∧
    (∀ (s : String) (u : Except String Unit) (a : Unit → Except String Unit) d,
       pipeline_diag Unit Unit (.ok ()) (.ok ()) (.error s) u a = some d →
       kindOf d = .transcodeStage) ∧
    (∀ (m : String) (a : Unit → Except String Unit) d,
       pipeline_diag Unit Unit (.ok ()) (.ok ()) (.ok ()) (.error m) a = some d →
       kindOf d = .uploadStage) ∧
    (∀ (m : String) d,
       pipeline_diag Unit Unit (.ok ()) (.ok ()) (.ok ()) (.ok ())
         (fun _ => .error m) = some d →
       kindOf d = .internalStage)

/-! ## Theorems -/

/-- Helper: queries never mutate the job store. -/
theorem run_queries_eq (R : Type) (ids : List String) (st : Store R) :
    run_queries R ids st = st := by
  induction ids generalizing st with
  | nil => rfl
  | cons i t ih => simpa [run_queries, status_endpoint] using ih st

/-- Helper: a squared distance vanishes exactly on coinciding points. -/
theorem distSq_eq_zero_iff (a b : ℚ × ℚ) : distSq a b = 0 ↔ a = b := by
  unfold distSq
  constructor
  · intro h
    have h1 := (add_eq_zero_iff_of_nonneg (sq_nonneg _) (sq_nonneg _)).mp h
    have hx : a.1 = b.1 := by
      have := (pow_eq_zero_iff (two_ne_zero)).mp h1.1
      linarith [sub_eq_zero.mp this]
    have hy : a.2 = b.2 := by
      have := (pow_eq_zero_iff (two_ne_zero)).mp h1.2
      linarith [sub_eq_zero.mp this]
    exact Prod.ext hx hy
  · intro h
    subst h
    ring

/-- C6: for positive width and height, the shape heuristic returns
`"running"` exactly below aspect ratio 0.8, `"soccer"` exactly above
1.6, and `"tennis"` otherwise; 400×800 → running, 1600×800 → soccer,
800×800 → tennis. -/
theorem c6_shape_heuristic (width height : ℕ) (fps : ℚ)
    (hw : 0 < width) (hh : 0 < height) :
    (simple_auto_sport width height fps = "running" ↔ (width : ℚ) / height < 4 / 5)
  ∧ (simple_auto_sport width height fps = "soccer" ↔ (width : ℚ) / height > 8 / 5)
  ∧ (simple_auto_sport width height fps = "tennis" ↔
       (4 / 5 ≤ (width : ℚ) / height ∧ (width : ℚ) / height ≤ 8 / 5))
  ∧ simple_auto_sport 400 800 fps = "running"
  ∧ simple_auto_sport 1600 800 fps = "soccer"
  ∧ simple_auto_sport 800 800 fps = "tennis" := by
  have h0 : height ≠ 0 := hh.ne'
  have hrun : "running" ≠ "soccer" ∧ "running" ≠ "tennis" ∧ "soccer" ≠ "tennis" := by
    refine ⟨?_, ?_, ?_⟩ <;> decide
  refine ⟨?_, ?_, ?_, ?_, ?_, ?_⟩
  · simp only [simple_auto_sport, if_neg h0]
    split_ifs with h1 h2 <;> simp_all
  · simp only [simple_auto_sport, if_neg h0]
    split_ifs with h1 h2 <;> simp_all <;> linarith
  · simp only [simple_auto_sport, if_neg h0]
    split_ifs with h1 h2 <;> simp_all <;> constructor <;> intro h <;> simp_all <;> linarith
  · simp only [simple_auto_sport]
    norm_num
  · simp only [simple_auto_sport]
    norm_num
  · simp only [simple_auto_sport]
    norm_num

/-- Witness for C6 at a concrete input. -/
theorem c6_shape_heuristic_witness :
    0 < 400 ∧ 0 < 800 ∧ simple_auto_sport 400 800 24 = "running" :=
  ⟨by decide, by decide,
   (c6_shape_heuristic 400 800 24 (by decide) (by decide)).2.2.2.1⟩

/-- Helper: counting hits over a constant series. -/
theorem countP_replicate_isHit (n : ℕ) (f : ArmFrame) :
    (List.replicate n f).countP isHit = if isHit f then n else 0 := by
  induction n with
  | zero => simp
  | succ k ih =>
    rw [List.replicate_succ, List.countP_cons]
    by_cases h : isHit f <;> simp [h, ih] <;> omega

/-- Helper: the 90°-bent, well-extended left arm frame used in concrete
motion-heuristic scenarios is a hit. -/
theorem isHit_bent_arm :
    isHit ⟨(1/5, 1/2), (1/2, 1/2), (1/2, 4/5)⟩ = true := by
  norm_num [isHit, angCosWindow, distSq, dotAt, abs_of_pos]

/-- C5 counterexample: a job with no sport hint, a 400×800 video and a
landmark time series that the motion heuristic classifies as
`"tennis"` (six frames of a 90°-bent, well-extended left arm) — the
resolved label of the pipeline is the `"running"` of the shape heuristic,
not the label of the motion heuristic: `process_job` never consults the motion
heuristic. -/
theorem c5_counterexample :
    resolve_sport none 400 800 24 = "running"
  ∧ _guess_sport_from_pose_series
      (List.replicate 6 ⟨(1/5, 1/2), (1/2, 1/2), (1/2, 4/5)⟩) = "tennis"
  ∧ "running" ≠ "tennis" := by
  refine ⟨?_, ?_, by decide⟩
  · norm_num [resolve_sport, simple_auto_sport]
  · rw [_guess_sport_from_pose_series]
    rw [countP_replicate_isHit, if_pos isHit_bent_arm]
    norm_num

/-- C5 amended: in the job pipeline an explicit nonempty caller-provided
sport hint wins, and in every other case (no hint, or an empty hint) the
shape heuristic is used directly — the motion heuristic is not part of
the sport resolution of the job pipeline. -/
theorem c5_sport_resolution_amended (provided : Option String)
    (width height : ℕ) (fps : ℚ) :
    (∀ s, provided = some s → s ≠ "" →
       resolve_sport provided width height fps = s)
  ∧ (provided = none →
       resolve_sport provided width height fps = simple_auto_sport width height fps)
  ∧ (provided = some "" →
       resolve_sport provided width height fps = simple_auto_sport width height fps) := by
  refine ⟨?_, ?_, ?_⟩
  · intro s hs hne
    subst hs
    simp [resolve_sport, hne]
  · intro h
    subst h
    rfl
  · intro h
    subst h
    rfl

/-- Witness for the amended C5 at a concrete input. -/
theorem c5_sport_resolution_amended_witness :
    resolve_sport (some "soccer") 400 800 24 = "soccer" :=
  (c5_sport_resolution_amended (some "soccer") 400 800 24).1 "soccer" rfl (by decide)

/-- C8 counterexample: hip `(0,0)` and ankle `(0,0)` coincide (two of
the three points are equal), yet `_angle` returns a present result —
the payload `1` is the embedded 0° angle (cosine clamped to 1), not
`None`. -/
theorem c8_counterexample :
    _angle (0, 0) (1, 0) (0, 0) ≠ none
  ∧ _angle (0, 0) (1, 0) (0, 0) = some 1 := by
  have h : _angle (0, 0) (1, 0) (0, 0) = some 1 := by
    norm_num [_angle, distSq]
  exact ⟨by rw [h]; exact Option.some_ne_none 1, h⟩

/-- C8 amended: the knee-angle computation is absent exactly when the
knee vertex coincides with the hip or with the ankle (coincidence of
hip and ankle alone yields a present, clamped 0° result); every present
result is the law-of-cosines angle at the knee with its cosine clamped
into `[-1, 1]` (payload bounds below), and the right-angle
example hip `(0,0)`, knee `(0,1)`, ankle `(1,1)` gives exactly 90°
(payload 0). -/
theorem c8_angle_amended (a b c : ℚ × ℚ) :
    (_angle a b c = none ↔ a = b ∨ c = b)
  ∧ (∀ r, _angle a b c = some r → -1 ≤ r ∧ r ≤ 1)
  ∧ _angle (0, 0) (0, 1) (1, 1) = some 0 := by
  refine ⟨?_, ?_, by norm_num [_angle, distSq]⟩
  · simp only [_angle]
    split_ifs with h
    · simp only [true_iff]
      rcases h with h | h
      · exact Or.inl ((distSq_eq_zero_iff a b).mp h)
      · exact Or.inr ((distSq_eq_zero_iff c b).mp h)
    · simp only [false_iff]
      intro hab
      rcases hab with hab | hab
      · exact h (Or.inl ((distSq_eq_zero_iff a b).mpr hab))
      · exact h (Or.inr ((distSq_eq_zero_iff c b).mpr hab))
  · intro r hr
    simp only [_angle] at hr
    split_ifs at hr with h
    have heq := Option.some_injective ℚ hr
    constructor
    · rw [← heq]
      exact le_max_left _ _
    · rw [← heq]
      exact max_le (by norm_num) (min_le_left _ _)

/-- Witness for the amended C8 at concrete inputs (the `some r`
hypothesis is discharged by the 90° conjunct of the theorem itself). -/
theorem c8_angle_amended_witness :
    (-1 ≤ (0 : ℚ) ∧ (0 : ℚ) ≤ 1)
  ∧ (_angle (0, 0) (0, 1) (2, 2) = none ↔
       ((0 : ℚ), (0 : ℚ)) = ((0 : ℚ), (1 : ℚ)) ∨ ((2 : ℚ), (2 : ℚ)) = ((0 : ℚ), (1 : ℚ))) :=
  ⟨(c8_angle_amended (0, 0) (0, 1) (1, 1)).2.1 0
     (c8_angle_amended (0, 0) (0, 1) (1, 1)).2.2,
   (c8_angle_amended (0, 0) (0, 1) (2, 2)).1⟩

/-- Helper: a fully-extended (180°) arm frame is not a hit (the angle
window test fails). -/
theorem isHit_straight_arm :
    isHit ⟨(0, 1/2), (3/10, 1/2), (3/5, 1/2)⟩ = false := by
  simp only [isHit, angCosWindow, distSq, dotAt, Bool.and_eq_false_iff]
  norm_num

/-- C7: the motion heuristic counts a frame as a hit exactly when the
elbow-shoulder extension exceeds 0.20 (squared: 1/25), its horizontal
component exceeds 0.15, and the shoulder–elbow–wrist angle lies
strictly in (60°, 120°) (equivalently, the cosine of the angle lies strictly
in (-1/2, 1/2), the window test `angCosWindow`); the series is labelled
`"tennis"` exactly when the hit count reaches `max 6 (total / 5)`
(`max(6, int(0.2 · total))`), and `"unknown"` otherwise.  Concretely: a
90°-bent arm frame is a hit, a straight arm frame is not; six hit
frames alone are `"tennis"`, five are not, and six hits among 35 frames
(below the 20 % bar) are `"unknown"`. -/
theorem c7_motion_heuristic (frames : List ArmFrame) :
    (_guess_sport_from_pose_series frames = "tennis" ↔
       frames.countP isHit ≥ max 6 (frames.length / 5))
  ∧ (_guess_sport_from_pose_series frames = "tennis" ∨
     _guess_sport_from_pose_series frames = "unknown")
  ∧ (∀ f : ArmFrame, isHit f = true ↔
       (1 / 25 < distSq f.el f.sh ∧ 3 / 20 < |f.el.1 - f.sh.1| ∧
        angCosWindow f.sh f.el f.wr = true))
  ∧ isHit ⟨(1/5, 1/2), (1/2, 1/2), (1/2, 4/5)⟩ = true
  ∧ isHit ⟨(0, 1/2), (3/10, 1/2), (3/5, 1/2)⟩ = false
  ∧ _guess_sport_from_pose_series
      (List.replicate 6 ⟨(1/5, 1/2), (1/2, 1/2), (1/2, 4/5)⟩) = "tennis"
  ∧ _guess_sport_from_pose_series
      (List.replicate 5 ⟨(1/5, 1/2), (1/2, 1/2), (1/2, 4/5)⟩) = "unknown"
  ∧ _guess_sport_from_pose_series
      (List.replicate 6 ⟨(1/5, 1/2), (1/2, 1/2), (1/2, 4/5)⟩ ++
       List.replicate 29 ⟨(0, 1/2), (3/10, 1/2), (3/5, 1/2)⟩) = "unknown" := by
  refine ⟨?_, ?_, ?_, isHit_bent_arm, isHit_straight_arm, ?_, ?_, ?_⟩
  · rw [_guess_sport_from_pose_series]
    by_cases h1 : frames = []
    · subst h1
      decide
    · rw [if_neg h1]
      split_ifs with h2
      · simp [h2]
      · constructor
        · intro h
          exact absurd h (by decide)
        · intro h
          exact absurd h h2
  · rw [_guess_sport_from_pose_series]
    split_ifs <;> simp
  · intro f
    simp [isHit, Bool.and_eq_true, decide_eq_true_eq, and_assoc]
  · rw [_guess_sport_from_pose_series, countP_replicate_isHit, if_pos isHit_bent_arm]
    simp
  · rw [_guess_sport_from_pose_series, countP_replicate_isHit, if_pos isHit_bent_arm]
    simp
  · rw [_guess_sport_from_pose_series, List.countP_append,
        countP_replicate_isHit, countP_replicate_isHit,
        if_pos isHit_bent_arm]
    have hneg : ¬(isHit ⟨(0, 1/2), (3/10, 1/2), (3/5, 1/2)⟩ = true) := by
      rw [isHit_straight_arm]
      exact Bool.false_ne_true
    rw [if_neg hneg]
    simp

/-- C4: the median helper ignores absent entries; it is absent exactly
when no present values remain; a single present value is returned
as-is; an odd count of present values yields the middle element of the
sorted survivors; an even count yields the arithmetic mean of the two
middle sorted survivors; and the median of `[1, 2, 3, 4]` is `2.5`. -/
theorem c4_median (xs : List (Option ℚ)) :
    (_median xs = none ↔ xs.filterMap id = [])
  ∧ (∀ x : ℚ, _median [some x] = some x)
  ∧ (((xs.filterMap id).insertionSort (· ≤ ·)).length % 2 = 1 →
      _median xs =
        ((xs.filterMap id).insertionSort (· ≤ ·))[((xs.filterMap id).insertionSort (· ≤ ·)).length / 2]?)
  ∧ (((xs.filterMap id).insertionSort (· ≤ ·)).length % 2 = 0 → xs.filterMap id ≠ [] →
      ∃ a b,
        ((xs.filterMap id).insertionSort (· ≤ ·))[((xs.filterMap id).insertionSort (· ≤ ·)).length / 2 - 1]? = some a ∧
        ((xs.filterMap id).insertionSort (· ≤ ·))[((xs.filterMap id).insertionSort (· ≤ ·)).length / 2]? = some b ∧
        _median xs = some ((a + b) / 2))
  ∧ _median [some 1, some 2, some 3, some 4] = some (5 / 2) := by
  set w := xs.filterMap id with hw
  set v := w.insertionSort (· ≤ ·) with hv
  have hlen : v.length = w.length := (List.perm_insertionSort _ w).length_eq
  have hmed : _median xs =
      (if v.length = 0 then none
       else if v.length % 2 = 1 then v[v.length / 2]?
       else match v[v.length / 2 - 1]?, v[v.length / 2]? with
         | some a, some b => some ((a + b) / 2)
         | _, _ => none) := rfl
  refine ⟨?_, ?_, ?_, ?_, ?_⟩
  · rw [hmed]
    constructor
    · intro h
      by_contra hne
      have hv0 : v.length ≠ 0 := by
        rw [hlen]
        exact fun h0 => hne (List.length_eq_zero.mp h0)
      rw [if_neg hv0] at h
      by_cases hodd : v.length % 2 = 1
      · rw [if_pos hodd] at h
        have hidx : v.length / 2 < v.length :=
          Nat.div_lt_self (Nat.pos_of_ne_zero hv0) one_lt_two
        rw [List.getElem?_eq_getElem hidx] at h
        exact Option.some_ne_none _ h
      · rw [if_neg hodd] at h
        have h2 : 2 ≤ v.length := by omega
        have hi1 : v.length / 2 - 1 < v.length := by omega
        have hi2 : v.length / 2 < v.length := by omega
        rw [List.getElem?_eq_getElem hi1, List.getElem?_eq_getElem hi2] at h
        exact Option.some_ne_none _ h
    · intro h
      have h0 : v.length = 0 := by
        rw [hlen, h]
        rfl
      rw [if_pos h0]
  · intro x
    simp [_median, List.insertionSort, List.orderedInsert]
  · intro hodd
    have hv0 : v.length ≠ 0 := by omega
    rw [hmed, if_neg hv0, if_pos hodd]
  · intro heven hne
    have hv0 : v.length ≠ 0 := by
      rw [hlen]
      exact fun h0 => hne (List.length_eq_zero.mp h0)
    have h2 : 2 ≤ v.length := by omega
    have hi1 : v.length / 2 - 1 < v.length := by omega
    have hi2 : v.length / 2 < v.length := by omega
    refine ⟨v[v.length / 2 - 1], v[v.length / 2],
      List.getElem?_eq_getElem hi1, List.getElem?_eq_getElem hi2, ?_⟩
    rw [hmed, if_neg hv0, if_neg (by omega : ¬v.length % 2 = 1),
      List.getElem?_eq_getElem hi1, List.getElem?_eq_getElem hi2]
  · norm_num [_median, List.insertionSort, List.orderedInsert]

/-- Witness for C4 at a concrete odd-length input. -/
theorem c4_median_witness :
    (((([some 1, some 2, some 3] : List (Option ℚ)).filterMap id).insertionSort (· ≤ ·)).length % 2 = 1)
  ∧ _median [some 1, some 2, some 3] =
      ((([some 1, some 2, some 3] : List (Option ℚ)).filterMap id).insertionSort
        (· ≤ ·))[((([some 1, some 2, some 3] : List (Option ℚ)).filterMap id).insertionSort (· ≤ ·)).length / 2]? :=
  ⟨by decide, (c4_median [some 1, some 2, some 3]).2.2.1 (by decide)⟩

/-- Helper: the knee clause is empty or the single knee tip. -/
theorem knee_rec_eq_or (mc : MetricsCalc) :
    knee_rec mc = [] ∨ knee_rec mc = [bend_knees_tip] := by
  rcases mc with ⟨kl, kr, ed, sw⟩
  cases kl with
  | none => simp [knee_rec]
  | some a =>
    cases kr with
    | none => simp [knee_rec]
    | some b =>
      simp only [knee_rec]
      split_ifs <;> simp

/-- Helper: the elbow clause is empty or the single elbow tip. -/
theorem elbow_rec_eq_or (mc : MetricsCalc) :
    elbow_rec mc = [] ∨ elbow_rec mc = [elbow_tip] := by
  rcases mc with ⟨kl, kr, ed, sw⟩
  cases ed with
  | none => simp [elbow_rec]
  | some a =>
    simp only [elbow_rec]
    split_ifs <;> simp

/-- Helper: the stance clause is empty or the single stance tip. -/
theorem stance_rec_eq_or (mc : MetricsCalc) :
    stance_rec mc = [] ∨ stance_rec mc = [stance_tip] := by
  rcases mc with ⟨kl, kr, ed, sw⟩
  cases sw with
  | none => simp [stance_rec]
  | some a =>
    simp only [stance_rec]
    split_ifs <;> simp

/-- Helper: the derived list never exceeds three entries. -/
theorem process_recs_length_le (mc : MetricsCalc) :
    (process_recs mc).length ≤ 3 := by
  rcases knee_rec_eq_or mc with h1 | h1 <;>
    rcases elbow_rec_eq_or mc with h2 | h2 <;>
      rcases stance_rec_eq_or mc with h3 | h3 <;>
        simp [process_recs, h1, h2, h3]

/-- Helper: the `[:3]` cap and the empty-list guard are both no-ops on
the derived list, so the attached recommendations are exactly `recs`. -/
theorem analysis_recommendations_eq (mc : MetricsCalc) :
    analysis_recommendations mc = process_recs mc := by
  show (if process_recs mc = [] then [] else (process_recs mc).take 3) = process_recs mc
  by_cases h : process_recs mc = []
  · simp [h]
  · rw [if_neg h]
    exact List.take_of_length_le (process_recs_length_le mc)

/-- Helper: membership of the knee tip in the knee clause. -/
theorem mem_knee_rec (mc : MetricsCalc) :
    bend_knees_tip ∈ knee_rec mc ↔
      ∃ kl kr, mc.knee_angle_left_median = some kl ∧
        mc.knee_angle_right_median = some kr ∧ 170 < kl ∧ 170 < kr := by
  rcases mc with ⟨kl, kr, ed, sw⟩
  cases kl with
  | none => simp [knee_rec]
  | some a =>
    cases kr with
    | none => simp [knee_rec]
    | some b =>
      simp only [knee_rec]
      split_ifs with h
      · simp only [List.mem_singleton]
        constructor
        · intro _
          exact ⟨a, b, rfl, rfl, h.2.2.1, h.2.2.2⟩
        · intro _
          trivial
      · simp only [List.not_mem_nil, false_iff]
        rintro ⟨kl, kr, hkl, hkr, h1, h2⟩
        rcases Option.some_injective _ hkl with rfl
        rcases Option.some_injective _ hkr with rfl
        exact h ⟨ne_of_gt (lt_trans (by norm_num) h1),
                 ne_of_gt (lt_trans (by norm_num) h2), h1, h2⟩

/-- Helper: membership of the elbow tip in the elbow clause. -/
theorem mem_elbow_rec (mc : MetricsCalc) :
    elbow_tip ∈ elbow_rec mc ↔
      ∃ ed, mc.elbow_drop_median = some ed ∧ 1 / 10 < ed := by
  rcases mc with ⟨kl, kr, ed, sw⟩
  cases ed with
  | none => simp [elbow_rec]
  | some a =>
    simp only [elbow_rec]
    split_ifs with h
    · simp only [List.mem_singleton]
      constructor
      · intro _
        exact ⟨a, rfl, h⟩
      · intro _
        trivial
    · simp only [List.not_mem_nil, false_iff]
      rintro ⟨ed, hed, h1⟩
      rcases Option.some_injective _ hed with rfl
      exact h h1

/-- Helper: membership of the stance tip in the stance clause. -/
theorem mem_stance_rec (mc : MetricsCalc) :
    stance_tip ∈ stance_rec mc ↔
      ∃ sw, mc.stance_width_ratio_median = some sw ∧ sw < 7 / 10 := by
  rcases mc with ⟨kl, kr, ed, sw⟩
  cases sw with
  | none => simp [stance_rec]
  | some a =>
    simp only [stance_rec]
    split_ifs with h
    · simp only [List.mem_singleton]
      constructor
      · intro _
        exact ⟨a, rfl, h⟩
      · intro _
        trivial
    · simp only [List.not_mem_nil, false_iff]
      rintro ⟨sw, hsw, h1⟩
      rcases Option.some_injective _ hsw with rfl
      exact h h1

/-- C3: the derived recommendation list contains the knee tip exactly
when both knee medians are present and exceed 170°, the elbow tip
exactly when the elbow-drop median is present and exceeds 0.10, and
the stance tip exactly when the stance-width-ratio median is present
and is below 0.70; the list is always a sublist of the fixed order
knee-elbow-stance and never exceeds 3 entries; the two concrete spec
aggregates produce `[knee tip]` and `[elbow tip, stance tip]`
respectively. -/
theorem c3_recommendations (mc : MetricsCalc) :
    (bend_knees_tip ∈ analysis_recommendations mc ↔
       ∃ kl kr, mc.knee_angle_left_median = some kl ∧
         mc.knee_angle_right_median = some kr ∧ 170 < kl ∧ 170 < kr)
  ∧ (elbow_tip ∈ analysis_recommendations mc ↔
       ∃ ed, mc.elbow_drop_median = some ed ∧ 1 / 10 < ed)
  ∧ (stance_tip ∈ analysis_recommendations mc ↔
       ∃ sw, mc.stance_width_ratio_median = some sw ∧ sw < 7 / 10)
  ∧ List.Sublist (analysis_recommendations mc) [bend_knees_tip, elbow_tip, stance_tip]
  ∧ (analysis_recommendations mc).length ≤ 3
  ∧ analysis_recommendations ⟨some 175, some 178, some (1/20), some (9/10)⟩ = [bend_knees_tip]
  ∧ analysis_recommendations ⟨some 150, some 150, some (3/20), some (1/2)⟩ =
      [elbow_tip, stance_tip] := by
  have hb_ne : bend_knees_tip ∉ elbow_rec mc ∧ bend_knees_tip ∉ stance_rec mc := by
    constructor
    · rcases elbow_rec_eq_or mc with h | h <;> simp [h] <;> decide
    · rcases stance_rec_eq_or mc with h | h <;> simp [h] <;> decide
  have he_ne : elbow_tip ∉ knee_rec mc ∧ elbow_tip ∉ stance_rec mc := by
    constructor
    · rcases knee_rec_eq_or mc with h | h <;> simp [h] <;> decide
    · rcases stance_rec_eq_or mc with h | h <;> simp [h] <;> decide
  have hs_ne : stance_tip ∉ knee_rec mc ∧ stance_tip ∉ elbow_rec mc := by
    constructor
    · rcases knee_rec_eq_or mc with h | h <;> simp [h] <;> decide
    · rcases elbow_rec_eq_or mc with h | h <;> simp [h] <;> decide
  refine ⟨?_, ?_, ?_, ?_, ?_, ?_, ?_⟩
  · rw [analysis_recommendations_eq, process_recs, List.mem_append, List.mem_append]
    constructor
    · intro h
      rcases h with (h | h) | h
      · exact (mem_knee_rec mc).mp h
      · exact absurd h hb_ne.1
      · exact absurd h hb_ne.2
    · intro h
      exact Or.inl (Or.inl ((mem_knee_rec mc).mpr h))
  · rw [analysis_recommendations_eq, process_recs, List.mem_append, List.mem_append]
    constructor
    · intro h
      rcases h with (h | h) | h
      · exact absurd h he_ne.1
      · exact (mem_elbow_rec mc).mp h
      · exact absurd h he_ne.2
    · intro h
      exact Or.inl (Or.inr ((mem_elbow_rec mc).mpr h))
  · rw [analysis_recommendations_eq, process_recs, List.mem_append, List.mem_append]
    constructor
    · intro h
      rcases h with (h | h) | h
      · exact absurd h hs_ne.1
      · exact absurd h hs_ne.2
      · exact (mem_stance_rec mc).mp h
    · intro h
      exact Or.inr ((mem_stance_rec mc).mpr h)
  · rw [analysis_recommendations_eq, process_recs]
    have h1 : List.Sublist (knee_rec mc) [bend_knees_tip] := by
      rcases knee_rec_eq_or mc with h | h <;> simp [h]
    have h2 : List.Sublist (elbow_rec mc) [elbow_tip] := by
      rcases elbow_rec_eq_or mc with h | h <;> simp [h]
    have h3 : List.Sublist (stance_rec mc) [stance_tip] := by
      rcases stance_rec_eq_or mc with h | h <;> simp [h]
    exact (h1.append h2).append h3
  · rw [analysis_recommendations_eq]
    exact process_recs_length_le mc
  · rw [analysis_recommendations_eq]
    norm_num [process_recs, knee_rec, elbow_rec, stance_rec]
  · rw [analysis_recommendations_eq]
    norm_num [process_recs, knee_rec, elbow_rec, stance_rec]

/-- C1: a job is created exactly once at submission with status
`PROCESSING` and no result; the background processor then writes, once,
a terminal status — `DONE` with the success payload exactly when the
pipeline succeeded, `ERROR` with the error dictionary otherwise —
touching no other job; status queries never mutate the store, so every
status query after completion observes the same single terminal status
and an identical payload. -/
theorem c1_job_lifecycle (R : Type) (st : Store R) (id object_path : String)
    (outcome : Except PyExc R) :
    status_query R (create_job R st id object_path) id = some ("PROCESSING", none)
  ∧ (∃ v : JobVal R,
      status_query R (process_job R id outcome (create_job R st id object_path)) id =
        some ((match outcome with | .ok _ => "DONE" | .error _ => "ERROR"), some v)
      ∧ (∀ r, outcome = .ok r → v = .res r)
      ∧ (∀ e, outcome = .error e → v = .err (process_job_error_result e)))
  ∧ (∀ k, k ≠ id →
      process_job R id outcome (create_job R st id object_path) k =
        create_job R st id object_path k)
  ∧ (∀ ids, run_queries R ids
        (process_job R id outcome (create_job R st id object_path)) =
      process_job R id outcome (create_job R st id object_path))
  ∧ (∀ ids, status_query R (run_queries R ids
        (process_job R id outcome (create_job R st id object_path))) id =
      status_query R (process_job R id outcome (create_job R st id object_path)) id) := by
  refine ⟨?_, ?_, ?_, ?_, ?_⟩
  · simp [status_query, create_job]
  · cases outcome with
    | ok r =>
      refine ⟨.res r, ?_, ?_, ?_⟩
      · simp [status_query, process_job, create_job]
      · intro r2 h
        rw [Except.ok.injEq] at h
        rw [h]
      · intro e h
        exact absurd h (by simp)
    | error e =>
      refine ⟨.err (process_job_error_result e), ?_, ?_, ?_⟩
      · simp [status_query, process_job, create_job]
      · intro r h
        exact absurd h (by simp)
      · intro e2 h
        rw [Except.error.injEq] at h
        rw [h]
  · intro k hk
    simp [process_job, hk]
  · intro ids
    exact run_queries_eq R ids _
  · intro ids
    rw [run_queries_eq]

/-- Witness for C1 at a concrete job (the hypotheses on the untouched
key and the outcome shape are discharged at `"other"` and `.ok ()`). -/
theorem c1_job_lifecycle_witness :
    ("other" ≠ "job-1")
  ∧ process_job Unit "job-1" (Except.ok ())
      (create_job Unit (fun _ => none) "job-1" "uploads/a.mp4") "other" =
    create_job Unit (fun _ => none) "job-1" "uploads/a.mp4" "other" :=
  ⟨by decide,
   (c1_job_lifecycle Unit (fun _ => none) "job-1" "uploads/a.mp4"
      (Except.ok ())).2.2.1 "other" (by decide)⟩

/-- C2 counterexample: no classification of the written diagnostics can
assign stage-identifying kinds, because a fetch failure and an
internal (result-assembly) failure with the same message produce the
*identical* diagnostic `{"error": "boom"}` — the handler distinguishes
only `CalledProcessError` from everything else, so the diagnostic does
not identify the failing stage. -/
theorem c2_counterexample : ¬claimStageClassification := by
  rintro ⟨kindOf, hf, _, _, _, hi⟩
  have h1 : kindOf ⟨"boom", none⟩ = .fetchStage :=
    hf "boom" (.ok ()) (.ok ()) (.ok ()) (fun _ => .ok ()) ⟨"boom", none⟩ rfl
  have h2 : kindOf ⟨"boom", none⟩ = .internalStage :=
    hi "boom" ⟨"boom", none⟩ rfl
  rw [h1] at h2
  exact StageKind.noConfusion h2

/-- C2 amended: any stage failure short-circuits every remaining stage
and is caught: the job is written with terminal status `ERROR` and a
diagnostic, never left in `PROCESSING`; the diagnostic distinguishes
only the transcode subprocess failure (reported as
`"ffmpeg transcode failed"` together with the stderr of the external
process), while every other stage failure is reported with the generic
exception message alone. -/
theorem c2_error_isolation_amended (M R : Type) (st : Store R)
    (id object_path : String) (outcome : Except PyExc R) :
    (∀ s, process_job_error_result (.calledProcessError s) =
       ⟨"ffmpeg transcode failed", some s⟩)
  ∧ (∀ m, process_job_error_result (.generic m) = ⟨m, none⟩)
  ∧ (∀ (m : String) (ov : Except String M) (tr up : Except String Unit)
       (asm : M → Except String R),
       run_pipeline M R (.error m) ov tr up asm = .error (.generic m))
  ∧ (∀ (m : String) (tr up : Except String Unit) (asm : M → Except String R),
       run_pipeline M R (.ok ()) (.error m) tr up asm = .error (.generic m))
  ∧ (∀ (meta : M) (s : String) (up : Except String Unit)
       (asm : M → Except String R),
       run_pipeline M R (.ok ()) (.ok meta) (.error s) up asm =
         .error (.calledProcessError s))
  ∧ (∀ (meta : M) (m : String) (asm : M → Except String R),
       run_pipeline M R (.ok ()) (.ok meta) (.ok ()) (.error m) asm =
         .error (.generic m))
  ∧ (∀ (meta : M) (m : String),
       run_pipeline M R (.ok ()) (.ok meta) (.ok ()) (.ok ())
         (fun _ => .error m) = .error (.generic m))
  ∧ (∀ e, outcome = .error e →
       status_query R (process_job R id outcome (create_job R st id object_path)) id =
         some ("ERROR", some (.err (process_job_error_result e))))
  ∧ (∀ e, outcome = .error e → ∀ res,
       status_query R (process_job R id outcome (create_job R st id object_path)) id ≠
         some ("PROCESSING", res)) := by
  refine ⟨fun s => rfl, fun m => rfl, fun m ov tr up asm => rfl,
    fun m tr up asm => rfl, fun meta s up asm => rfl,
    fun meta m asm => rfl, fun meta m => rfl, ?_, ?_⟩
  · intro e h
    subst h
    simp [status_query, process_job, create_job]
  · intro e h res
    subst h
    simp [status_query, process_job, create_job]

/-- Witness for the amended C2 at a concrete failed job. -/
theorem c2_error_isolation_amended_witness :
    status_query Unit
      (process_job Unit "job-1" (Except.error (PyExc.generic "boom"))
        (create_job Unit (fun _ => none) "job-1" "uploads/a.mp4")) "job-1" =
      some ("ERROR", some (.err ⟨"boom", none⟩)) :=
  (c2_error_isolation_amended Unit Unit (fun _ => none) "job-1" "uploads/a.mp4"
    (Except.error (PyExc.generic "boom"))).2.2.2.2.2.2.2.1
    (PyExc.generic "boom") rfl

/-- Helper: `dropWhile` consumes an all-whitespace prefix. -/
theorem dropWhile_append_of_all (p x : List Char)
    (hp : ∀ c ∈ p, isPySpace c) :
    (p ++ x).dropWhile isPySpace = x.dropWhile isPySpace := by
  induction p with
  | nil => rfl
  | cons c t ih =>
    have hc : isPySpace c := hp c (List.mem_cons_self c t)
    rw [List.cons_append, List.dropWhile_cons, if_pos hc]
    exact ih (fun d hd => hp d (List.mem_cons_of_mem c hd))

/-- Helper: `dropWhile` empties an all-whitespace list. -/
theorem dropWhile_all_space (q : List Char) (hq : ∀ c ∈ q, isPySpace c) :
    q.dropWhile isPySpace = [] := by
  have h := dropWhile_append_of_all q [] hq
  simpa using h

/-- Helper: how `dropWhile` acts on an append. -/
theorem dropWhile_append_or (d q : List Char) :
    (d ++ q).dropWhile isPySpace = d.dropWhile isPySpace ++ q ∨
    (d.dropWhile isPySpace = [] ∧
     (d ++ q).dropWhile isPySpace = q.dropWhile isPySpace) := by
  induction d with
  | nil => exact Or.inr ⟨rfl, rfl⟩
  | cons c t ih =>
    by_cases hc : isPySpace c
    · simp only [List.cons_append, List.dropWhile_cons]
      rw [if_pos hc, if_pos hc]
      exact ih
    · simp only [List.cons_append, List.dropWhile_cons]
      rw [if_neg hc, if_neg hc]
      left
      rfl

/-- Helper: lower-casing preserves whitespace characters. -/
theorem isPySpace_pyCharLower (c : Char) (h : isPySpace c) :
    isPySpace (pyCharLower c) := by
  simp only [isPySpace, decide_eq_true_eq] at h
  rcases h with rfl | rfl | rfl | rfl | rfl | rfl <;> decide

/-- Helper: stripping ignores all-whitespace padding on both sides. -/
theorem stripChars_pad (p d q : List Char)
    (hp : ∀ c ∈ p, isPySpace c) (hq : ∀ c ∈ q, isPySpace c) :
    (((p ++ d ++ q).dropWhile isPySpace).reverse.dropWhile isPySpace).reverse =
    ((d.dropWhile isPySpace).reverse.dropWhile isPySpace).reverse := by
  have h1 : (p ++ d ++ q).dropWhile isPySpace = (d ++ q).dropWhile isPySpace := by
    rw [List.append_assoc]
    exact dropWhile_append_of_all p _ hp
  rcases dropWhile_append_or d q with h | ⟨h0, h⟩
  · rw [h1, h, List.reverse_append]
    rw [dropWhile_append_of_all q.reverse _ (fun c hc => hq c (List.mem_reverse.mp hc))]
  · rw [h1, h, h0, dropWhile_all_space q hq]

/-- Helper: the Python argument normalisation ignores all-whitespace
padding. -/
theorem pyNorm_pad (s : String) (p q : List Char)
    (hp : ∀ c ∈ p, isPySpace c) (hq : ∀ c ∈ q, isPySpace c) :
    pyNorm (some ⟨p ++ s.data ++ q⟩) = pyNorm (some s) := by
  show pyStrip (pyLower ⟨p ++ s.data ++ q⟩) = pyStrip (pyLower s)
  have hp2 : ∀ c ∈ p.map pyCharLower, isPySpace c := by
    intro c hc
    rcases List.mem_map.mp hc with ⟨c0, hc0, rfl⟩
    exact isPySpace_pyCharLower c0 (hp c0 hc0)
  have hq2 : ∀ c ∈ q.map pyCharLower, isPySpace c := by
    intro c hc
    rcases List.mem_map.mp hc with ⟨c0, hc0, rfl⟩
    exact isPySpace_pyCharLower c0 (hq c0 hc0)
  show String.mk _ = String.mk _
  simp only [pyStrip, pyLower, lstripList, List.map_append]
  rw [stripChars_pad (p.map pyCharLower) (s.data.map pyCharLower) (q.map pyCharLower) hp2 hq2]

/-- Helper: the lookup depends only on the normalised arguments. -/
theorem gfr_congr (sp1 sp2 f1 f2 : Option String) (l : ℕ)
    (hs : pyNorm sp1 = pyNorm sp2) (hf : pyNorm f1 = pyNorm f2) :
    get_focus_recommendations sp1 f1 l = get_focus_recommendations sp2 f2 l := by
  unfold get_focus_recommendations
  rw [hs, hf]

/-- Helper: strings that agree after lower-casing normalise alike. -/
theorem pyNorm_lower_congr (s1 s2 : String)
    (h : s1.data.map pyCharLower = s2.data.map pyCharLower) :
    pyNorm (some s1) = pyNorm (some s2) := by
  show pyStrip (pyLower s1) = pyStrip (pyLower s2)
  have hl : pyLower s1 = pyLower s2 := by
    unfold pyLower
    rw [h]
  rw [hl]

/-- C9: an unknown sport yields exactly the one generic placeholder; a
known sport with an unknown focus yields exactly the one
"no tips for this focus" placeholder (interpolating the normalised
focus); a known sport/focus pair yields at most `limit` entries, whose
texts are the first `limit` entries of the catalog list in catalog order and
whose ids enumerate them from 0. -/
theorem c9_focus_lookup (sport focus : Option String) (limit : ℕ) :
    (RECOMMENDATIONS_DB.lookup (pyNorm sport) = none →
       get_focus_recommendations sport focus limit =
         [⟨0, "General tip: keep movements controlled and repeatable."⟩])
  ∧ (∀ fm, RECOMMENDATIONS_DB.lookup (pyNorm sport) = some fm →
       fm.lookup (pyNorm focus) = none →
       get_focus_recommendations sport focus limit =
         [⟨0, "No specific tips for \x27" ++ pyNorm focus ++ "\x27. Try another focus."⟩])
  ∧ (∀ fm tips, RECOMMENDATIONS_DB.lookup (pyNorm sport) = some fm →
       fm.lookup (pyNorm focus) = some tips →
       (get_focus_recommendations sport focus limit).length ≤ limit
       ∧ (get_focus_recommendations sport focus limit).map Tip.text = tips.take limit
       ∧ (get_focus_recommendations sport focus limit).map Tip.id =
           List.range (tips.take limit).length) := by
  refine ⟨?_, ?_, ?_⟩
  · intro h
    simp only [get_focus_recommendations, h]
  · intro fm h1 h2
    simp only [get_focus_recommendations, h1, h2]
  · intro fm tips h1 h2
    have hg : get_focus_recommendations sport focus limit =
        (tips.take limit).enum.map (fun p => ⟨p.1, p.2⟩) := by
      simp only [get_focus_recommendations, h1, h2]
    rw [hg]
    refine ⟨?_, ?_, ?_⟩
    · rw [List.length_map, List.enum_length]
      exact List.length_take_le limit tips
    · rw [List.map_map]
      have hc : (Tip.text ∘ fun p : ℕ × String => (⟨p.1, p.2⟩ : Tip)) = Prod.snd := rfl
      rw [hc, List.enum_map_snd]
    · rw [List.map_map]
      have hc : (Tip.id ∘ fun p : ℕ × String => (⟨p.1, p.2⟩ : Tip)) = Prod.fst := rfl
      rw [hc, List.enum_map_fst]

/-- Witness for C9: the generic branch at an unknown sport, and the
known-pair branch at tennis/swing with limit 2. -/
theorem c9_focus_lookup_witness :
    get_focus_recommendations (some "golf") (some "swing") 3 =
      [⟨0, "General tip: keep movements controlled and repeatable."⟩]
  ∧ (get_focus_recommendations (some "tennis") (some "swing") 2).map Tip.text =
      tennis_swing.take 2 :=
  ⟨(c9_focus_lookup (some "golf") (some "swing") 3).1 (by decide),
   ((c9_focus_lookup (some "tennis") (some "swing") 2).2.2
     [("swing", tennis_swing), ("footwork", tennis_footwork),
      ("preparation", tennis_preparation)]
     tennis_swing (by decide) (by decide)).2.1⟩

/-- C10: the focus-tip lookup treats a missing sport or focus as the
empty string, and is invariant under letter-case changes and under
added leading/trailing whitespace in either argument — both arguments
are lower-cased and stripped before the catalog lookup; in particular
`(" Tennis ", "SWING")` yields the same tips as `("tennis", "swing")`. -/
theorem c10_focus_normalization :
    (∀ f l, get_focus_recommendations none f l =
       get_focus_recommendations (some "") f l)
  ∧ (∀ s l, get_focus_recommendations s none l =
       get_focus_recommendations s (some "") l)
  ∧ (∀ s1 s2 f l, s1.data.map pyCharLower = s2.data.map pyCharLower →
       get_focus_recommendations (some s1) f l =
         get_focus_recommendations (some s2) f l)
  ∧ (∀ s f1 f2 l, f1.data.map pyCharLower = f2.data.map pyCharLower →
       get_focus_recommendations s (some f1) l =
         get_focus_recommendations s (some f2) l)
  ∧ (∀ s f l p q, (∀ c ∈ p, isPySpace c) → (∀ c ∈ q, isPySpace c) →
       get_focus_recommendations (some ⟨p ++ s.data ++ q⟩) f l =
         get_focus_recommendations (some s) f l)
  ∧ (∀ s f l p q, (∀ c ∈ p, isPySpace c) → (∀ c ∈ q, isPySpace c) →
       get_focus_recommendations s (some ⟨p ++ f.data ++ q⟩) l =
         get_focus_recommendations s (some f) l)
  ∧ get_focus_recommendations (some " Tennis ") (some "SWING") 3 =
      get_focus_recommendations (some "tennis") (some "swing") 3 := by
  refine ⟨?_, ?_, ?_, ?_, ?_, ?_, by decide⟩
  · intro f l
    rfl
  · intro s l
    rfl
  · intro s1 s2 f l h
    exact gfr_congr _ _ _ _ l (pyNorm_lower_congr s1 s2 h) rfl
  · intro s f1 f2 l h
    exact gfr_congr _ _ _ _ l rfl (pyNorm_lower_congr f1 f2 h)
  · intro s f l p q hp hq
    exact gfr_congr _ _ _ _ l (pyNorm_pad s p q hp hq) rfl
  · intro s f l p q hp hq
    exact gfr_congr _ _ _ _ l rfl (pyNorm_pad f p q hp hq)

/-- Witness for C10: whitespace padding around `"tennis"` at concrete
arguments. -/
theorem c10_focus_normalization_witness :
    get_focus_recommendations (some ⟨[' '] ++ "tennis".data ++ [' ']⟩) (some "swing") 3 =
      get_focus_recommendations (some "tennis") (some "swing") 3 :=
  c10_focus_normalization.2.2.2.2.1 "tennis" (some "swing") 3 [' '] [' ']
    (by decide) (by decide)
